import Mathlib

/-!
Verification of the markdown-to-docx conversion service (`src/app.py`).

The whole service is one Flask handler, `convert_markdown_to_docx`, bound to
`POST /api/convert`.  We embed it shallowly: the HTTP layer hands the handler
an already-parsed request (`Request`); all interaction with the outside world
(the uuid generator, the scratch filesystem, the pandoc subprocess, Flask's
`send_file`, `os.remove`) is resolved by an explicit environment (`ConvEnv`)
recording what each external call would do.  The scratch filesystem is an
association list from paths to file contents.  A Python exception escaping the
handler is an `Except.error`; a value actually returned to the HTTP layer is
an `Except.ok` carrying a `Response`.
-/

namespace Md2Docx

/-- A parsed Python/JSON value, as `request.get_json()` yields it
(`None`, booleans, numbers, strings, lists, dicts). -/
inductive PyVal where
  | pyNone
  | pyBool (b : Bool)
  | pyInt (n : Int)
  | pyStr (s : String)
  | pyList (xs : List PyVal)
  | pyDict (kvs : List (String × PyVal))

/-- Python exceptions that the handler's code can raise or let escape. -/
inductive PyExc where
  | attributeError
  | typeError
  | ioError
  | osError
  | timeoutExpired
deriving DecidableEq

/-- Python truthiness test, as used by `if not markdown_content:`
(app.py line 40): `None`, `False`, `0`, `""`, `[]`, `{}` are falsy. -/
def isFalsy : PyVal → Bool
  | .pyNone => true
  | .pyBool b => !b
  | .pyInt n => n == 0
  | .pyStr s => s == ""
  | .pyList xs => xs.isEmpty
  | .pyDict kvs => kvs.isEmpty

/-- Whether the parsed value is a Python dict. -/
def isDict : PyVal → Bool
  | .pyDict _ => true
  | _ => false

/-- `data.get(k)` (app.py line 38): on a dict it returns the value or `None`
when the key is absent; on any other value the attribute lookup `.get`
raises `AttributeError`. -/
def pyGet : PyVal → String → Except PyExc PyVal
  | .pyDict kvs, k => .ok ((kvs.lookup k).getD .pyNone)
  | _, _ => .error .attributeError

/-- The scratch filesystem: association list from absolute path to content. -/
def Fs : Type := List (String × String)

/-- `os.path.exists p`. -/
def fsExists (fs : Fs) (p : String) : Bool :=
  (List.any fs fun e => e.1 == p)

/-- Reading a file's content (used by `send_file`). -/
def fsRead (fs : Fs) (p : String) : Option String :=
  List.lookup p fs

/-- `os.remove p` when it succeeds: the path is gone afterwards. -/
def fsRemove (fs : Fs) (p : String) : Fs :=
  List.filter (fun e => e.1 != p) fs

/-- Creating or truncating-and-writing a file at `p` with content `c`. -/
def fsWrite (fs : Fs) (p : String) (c : String) : Fs :=
  (p, c) :: fsRemove fs p

/-- First character test, as `os.path.join` uses it on its second argument. -/
def strStarts (s : String) (c : Char) : Bool :=
  match s.data with
  | [] => false
  | ch :: _ => ch == c

/-- Last character test, as `os.path.join` uses it on its first argument. -/
def strEnds (s : String) (c : Char) : Bool :=
  match s.data.getLast? with
  | some ch => ch == c
  | none => false

/-- `os.path.join a b` for one path component: `b` if `b` is absolute,
otherwise `a` and `b` joined with exactly one separator. -/
def osPathJoin (a b : String) : String :=
  if strStarts b '/' then b
  else if strEnds a '/' then a ++ b
  else a ++ "/" ++ b

/-- app.py line 21: `TEMP_DIR = '/tmp'` — a module-level string literal. -/
def TEMP_DIR : String := "/tmp"

/-- The scratch directory as a function of the process environment.  The
source never reads `os.environ` (line 21 binds the literal `'/tmp'`), so the
environment is ignored. -/
def TEMP_DIR_of_environ (_environ : List (String × String)) : String :=
  TEMP_DIR

/-- Modelled from the spec: "a writable scratch-directory path
(environment-overridable) ... defaults to a platform temp directory".
Stated for comparison against what the code does (`TEMP_DIR_of_environ`). -/
def TEMP_DIR_spec (environ : List (String × String)) : String :=
  ((List.lookup "TEMP_DIR" environ).getD "/tmp")

/-- app.py line 46: `input_md_path = os.path.join(TEMP_DIR, f'{unique_id}.md')`. -/
def input_md_path (unique_id : String) : String :=
  osPathJoin TEMP_DIR (unique_id ++ ".md")

/-- app.py line 47: `output_docx_path = os.path.join(TEMP_DIR, f'{unique_id}.docx')`. -/
def output_docx_path (unique_id : String) : String :=
  osPathJoin TEMP_DIR (unique_id ++ ".docx")

/-- The docx MIME type string of app.py line 94. -/
def pandocMimetype : String :=
  "application/vnd.openxmlformats-officedocument.wordprocessingml.document"

/-- The 400 error message of app.py line 41. -/
def missingKeyMsg : String := "Missing \x27markdown\x27 key in request body"

/-- What the handler hands back.  `jsonResp` is `jsonify(...), status`;
`fileResp` is `send_file(..., as_attachment=True, download_name, mimetype)`
carrying the bytes that were read from the output artifact. -/
inductive Response where
  | jsonResp (status : Nat) (fields : List (String × String))
  | fileResp (status : Nat) (content : String) (downloadName : String) (mimetype : String)
deriving DecidableEq

/-- Observable side effects of one handler run: whether a converter
subprocess was spawned, and whether it is still running when the handler
yields (subprocess.run on timeout kills the child before raising). -/
structure Trace where
  spawned : Bool
  procAlive : Bool
deriving DecidableEq

/-- The request as the HTTP layer presents it to the handler:
`request.is_json`, and the parsed JSON body. -/
structure Request where
  isJson : Bool
  body : PyVal

/-- One request's interaction with everything outside the handler:
the token `uuid.uuid4()` returns; whether opening/writing the scratch input
succeeds; whether pandoc exceeds the 30 s timeout; otherwise its exit code,
captured stderr text, and the output-file content it writes (none = it writes
nothing); whether `send_file` succeeds in reading the output artifact; and
whether each `os.remove` during cleanup succeeds. -/
structure ConvEnv where
  token : String
  writeOk : Bool
  timeout : Bool
  returncode : Int
  stderr : String
  output : Option String
  sendOk : Bool
  removeInputOk : Bool
  removeOutputOk : Bool

/-- The handler's outcome: the value returned to the HTTP layer (`.ok`) or
the exception escaping it (`.error`), the final scratch filesystem, and the
subprocess trace. -/
structure HandlerOutcome where
  result : Except PyExc Response
  fs : Fs
  trace : Trace

/-- The body of the `try:` block, app.py lines 51–95: write the markdown to
the input artifact (the `open` creates the file; writing a non-string raises
`TypeError` after creation; an I/O failure on open raises `IOError`), run
pandoc with a 30 s timeout (`TimeoutExpired` is raised after the child is
killed), then classify: non-zero exit → 500 "Pandoc conversion failed" with
stderr as details; missing output file → 500 "Converted file not found on
server"; otherwise `send_file` with the fixed download name and MIME type. -/
def tryBody (markdown_content : PyVal) (env : ConvEnv) (fs0 : Fs) :
    Except PyExc Response × Fs × Trace :=
  let inP := input_md_path env.token
  let outP := output_docx_path env.token
  if !env.writeOk then
    (.error .ioError, fs0, ⟨false, false⟩)
  else
    match markdown_content with
    | .pyStr s =>
      let fs1 := fsWrite fs0 inP s
      if env.timeout then
        (.error .timeoutExpired, fs1, ⟨true, false⟩)
      else
        let fs2 := match env.output with
          | some c => fsWrite fs1 outP c
          | none => fs1
        if env.returncode != 0 then
          (.ok (.jsonResp 500 [("error", "Pandoc conversion failed"),
                               ("details", env.stderr)]), fs2, ⟨true, false⟩)
        else if !(fsExists fs2 outP) then
          (.ok (.jsonResp 500 [("error", "Converted file not found on server")]),
           fs2, ⟨true, false⟩)
        else if env.sendOk then
          (.ok (.fileResp 200 ((fsRead fs2 outP).getD "")
                 "converted_document.docx" pandocMimetype), fs2, ⟨true, false⟩)
        else
          (.error .ioError, fs2, ⟨true, false⟩)
    | _ =>
      (.error .typeError, fsWrite fs0 inP "", ⟨false, false⟩)

/-- Second half of the `finally:` block, app.py lines 102–103: remove the
output artifact if it exists; a failing `os.remove` raises `OSError`,
replacing the pending result. -/
def removeOutputStep (env : ConvEnv) (res : Except PyExc Response) (fs : Fs) :
    Except PyExc Response × Fs :=
  if fsExists fs (output_docx_path env.token) then
    if env.removeOutputOk then (res, fsRemove fs (output_docx_path env.token))
    else (.error .osError, fs)
  else (res, fs)

/-- The `finally:` block, app.py lines 97–103: remove the input artifact if
it exists, then the output artifact if it exists.  Python semantics: an
exception raised inside `finally` replaces the pending return value or
exception, and skips the rest of the block. -/
def finallyCleanup (env : ConvEnv) (res : Except PyExc Response) (fs : Fs) :
    Except PyExc Response × Fs :=
  if fsExists fs (input_md_path env.token) then
    if env.removeInputOk then
      removeOutputStep env res (fsRemove fs (input_md_path env.token))
    else (.error .osError, fs)
  else removeOutputStep env res fs

/-- The handler, app.py lines 28–103.  Lines 33–34: non-JSON content type →
415.  Lines 37–41: `data.get('markdown')` (AttributeError on a non-dict
body), falsy value → 400.  Then the `try:` body followed unconditionally by
the `finally:` cleanup. -/
def convert_markdown_to_docx (req : Request) (env : ConvEnv) (fs0 : Fs) :
    HandlerOutcome :=
  if !req.isJson then
    ⟨.ok (.jsonResp 415 [("error", "Request must be JSON")]), fs0, ⟨false, false⟩⟩
  else
    match pyGet req.body "markdown" with
    | .error e => ⟨.error e, fs0, ⟨false, false⟩⟩
    | .ok markdown_content =>
      if isFalsy markdown_content then
        ⟨.ok (.jsonResp 400 [("error", missingKeyMsg)]), fs0, ⟨false, false⟩⟩
      else
        let r := tryBody markdown_content env fs0
        let fin := finallyCleanup env r.1 r.2.1
        ⟨fin.1, fin.2, r.2.2⟩

/-! ### Filesystem lemmas -/

lemma fsExists_fsRemove_self (fs : Fs) (p : String) :
    fsExists (fsRemove fs p) p = false := by
  simp [fsExists, fsRemove, List.any_eq_true]

lemma fsExists_fsRemove_of (fs : Fs) (p q : String) (h : fsExists fs p = false) :
    fsExists (fsRemove fs q) p = false := by
  simp only [fsExists, fsRemove, List.any_eq_false, List.mem_filter] at h ⊢
  intro x hx
  exact h x hx.1

lemma fsExists_fsWrite_self (fs : Fs) (p c : String) :
    fsExists (fsWrite fs p c) p = true := by
  simp [fsExists, fsWrite]

lemma fsExists_fsWrite_of_ne (fs : Fs) (p q c : String) (hne : p ≠ q)
    (h : fsExists fs q = false) : fsExists (fsWrite fs p c) q = false := by
  have h2 := fsExists_fsRemove_of fs q p h
  simp only [fsExists, fsWrite, List.any_cons] at h2 ⊢
  simp [h2, hne]

lemma fsExists_fsWrite_keep (fs : Fs) (p q c : String) (hne : q ≠ p)
    (h : fsExists fs q = true) : fsExists (fsWrite fs p c) q = true := by
  simp only [fsExists, List.any_eq_true] at h
  obtain ⟨x, hx, hxp⟩ := h
  have hxq : x.1 = q := by simpa using hxp
  simp only [fsExists, fsWrite, fsRemove, List.any_cons, List.any_eq_true,
    List.mem_filter, Bool.or_eq_true]
  right
  exact ⟨x, ⟨hx, by simp [hxq, hne]⟩, hxp⟩

lemma fsRead_fsWrite_self (fs : Fs) (p c : String) :
    fsRead (fsWrite fs p c) p = some c := by
  simp [fsRead, fsWrite, List.lookup]

/-! ### Cleanup lemmas: the `finally:` block with successful removals -/

lemma removeOutputStep_fst (env : ConvEnv) (res : Except PyExc Response) (fs : Fs)
    (hro : env.removeOutputOk = true) : (removeOutputStep env res fs).1 = res := by
  unfold removeOutputStep
  rw [hro]
  split <;> rfl

lemma finallyCleanup_fst (env : ConvEnv) (res : Except PyExc Response) (fs : Fs)
    (hri : env.removeInputOk = true) (hro : env.removeOutputOk = true) :
    (finallyCleanup env res fs).1 = res := by
  unfold finallyCleanup
  rw [hri]
  split
  · exact removeOutputStep_fst env res _ hro
  · exact removeOutputStep_fst env res _ hro

lemma removeOutputStep_clears (env : ConvEnv) (res : Except PyExc Response) (fs : Fs)
    (hro : env.removeOutputOk = true) :
    fsExists (removeOutputStep env res fs).2 (output_docx_path env.token) = false ∧
    ∀ p : String, fsExists fs p = false → fsExists (removeOutputStep env res fs).2 p = false := by
  unfold removeOutputStep
  rw [hro]
  split
  · exact ⟨fsExists_fsRemove_self fs _, fun p hp => fsExists_fsRemove_of fs p _ hp⟩
  · next h =>
    exact ⟨by simpa using h, fun p hp => hp⟩

lemma finallyCleanup_clears (env : ConvEnv) (res : Except PyExc Response) (fs : Fs)
    (hri : env.removeInputOk = true) (hro : env.removeOutputOk = true) :
    fsExists (finallyCleanup env res fs).2 (input_md_path env.token) = false ∧
    fsExists (finallyCleanup env res fs).2 (output_docx_path env.token) = false := by
  unfold finallyCleanup
  rw [hri]
  split
  · have h := removeOutputStep_clears env res (fsRemove fs (input_md_path env.token)) hro
    refine ⟨h.2 _ (fsExists_fsRemove_self fs _), h.1⟩
  · next h =>
    have h2 := removeOutputStep_clears env res fs hro
    refine ⟨h2.2 _ (by simpa using h), h2.1⟩

/-! ### The two artifact paths of one request are always distinct -/

lemma string_len_append (a b : String) : (a ++ b).length = a.length + b.length :=
  String.length_append a b

lemma input_ne_output (t : String) : input_md_path t ≠ output_docx_path t := by
  intro h
  have hl := congrArg String.length h
  unfold input_md_path output_docx_path osPathJoin TEMP_DIR at hl
  have he : strEnds "/tmp" '/' = false := rfl
  have e1 : String.length ".md" = 3 := rfl
  have e2 : String.length ".docx" = 5 := rfl
  have e3 : String.length "/tmp" = 4 := rfl
  have e4 : String.length "/" = 1 := rfl
  by_cases h1 : strStarts (t ++ ".md") '/' = true <;>
    by_cases h2 : strStarts (t ++ ".docx") '/' = true <;>
    simp only [h1, h2, he, Bool.not_eq_true] at hl <;>
    simp only [if_true, if_false, Bool.false_eq_true, ite_false, ite_true,
      string_len_append, e1, e2, e3, e4] at hl <;>
    omega

/-- A request that passes both validation checks runs the `try:` body and
then, unconditionally, the `finally:` cleanup. -/
lemma convert_valid (body m : PyVal) (env : ConvEnv) (fs0 : Fs)
    (hget : pyGet body "markdown" = Except.ok m)
    (hval : isFalsy m = false) :
    convert_markdown_to_docx ⟨true, body⟩ env fs0 =
      ⟨(finallyCleanup env (tryBody m env fs0).1 (tryBody m env fs0).2.1).1,
       (finallyCleanup env (tryBody m env fs0).1 (tryBody m env fs0).2.1).2,
       (tryBody m env fs0).2.2⟩ := by
  simp [convert_markdown_to_docx, hget, hval]

/-! ### The claims -/

/-- C1: for every request that passes validation, whatever the external world
does (write success or failure, timeout, any exit code, any converter output,
send success or failure) — i.e. on success, every error-response branch, and
every exception escaping the `try:` body — the `finally:` cleanup runs, and
provided the two `os.remove` calls themselves succeed, neither the input
artifact nor the output artifact exists on the scratch filesystem when the
handler yields control. -/
theorem c1_cleanup_on_every_path
    (body m : PyVal) (fs0 : Fs) (t se : String) (w tm so : Bool)
    (rc : Int) (out : Option String)
    (hget : pyGet body "markdown" = Except.ok m)
    (hval : isFalsy m = false) :
    fsExists (convert_markdown_to_docx ⟨true, body⟩
      ⟨t, w, tm, rc, se, out, so, true, true⟩ fs0).fs (input_md_path t) = false ∧
    fsExists (convert_markdown_to_docx ⟨true, body⟩
      ⟨t, w, tm, rc, se, out, so, true, true⟩ fs0).fs (output_docx_path t) = false := by
  rw [convert_valid body m _ fs0 hget hval]
  exact finallyCleanup_clears _ _ _ rfl rfl

/-- Witness for C1 at a concrete request (a successful conversion). -/
theorem c1_cleanup_on_every_path_witness :
    fsExists (convert_markdown_to_docx ⟨true, PyVal.pyDict [("markdown", PyVal.pyStr "# Hello")]⟩
      ⟨"tok", true, false, 0, "", some "DOCX", true, true, true⟩ []).fs (input_md_path "tok") = false ∧
    fsExists (convert_markdown_to_docx ⟨true, PyVal.pyDict [("markdown", PyVal.pyStr "# Hello")]⟩
      ⟨"tok", true, false, 0, "", some "DOCX", true, true, true⟩ []).fs (output_docx_path "tok") = false :=
  c1_cleanup_on_every_path (PyVal.pyDict [("markdown", PyVal.pyStr "# Hello")])
    (PyVal.pyStr "# Hello") [] "tok" "" true false true 0 (some "DOCX") rfl rfl

/-- C2, counterexample: on a valid request whose converter exceeds the 30 s
timeout, the handler does NOT produce a structured error response: the
`Except.error PyExc.timeoutExpired` outcome is `subprocess.TimeoutExpired`
escaping `convert_markdown_to_docx` uncaught (the function has a `finally:`
but no `except:`), so no `ConversionTimeout` JSON response with an explicit
status is ever built. -/
theorem c2_timeout_cex :
    (convert_markdown_to_docx ⟨true, PyVal.pyDict [("markdown", PyVal.pyStr "# Hello")]⟩
      ⟨"tok", true, true, 0, "", none, true, true, true⟩ []).result
      = Except.error PyExc.timeoutExpired := rfl

/-- C2, amended: on a valid request whose converter exceeds the timeout,
`subprocess.run` kills the spawned process (it is not left running) and the
`finally:` cleanup still removes both artifacts, but the handler raises
`subprocess.TimeoutExpired` out of the request handler instead of returning a
structured `ConversionTimeout` response. -/
theorem c2_timeout_terminates_and_cleans
    (body : PyVal) (s : String) (fs0 : Fs) (t se : String)
    (rc : Int) (out : Option String) (so : Bool)
    (hget : pyGet body "markdown" = Except.ok (PyVal.pyStr s))
    (hs : s ≠ "") :
    (convert_markdown_to_docx ⟨true, body⟩
      ⟨t, true, true, rc, se, out, so, true, true⟩ fs0).result
      = Except.error PyExc.timeoutExpired ∧
    (convert_markdown_to_docx ⟨true, body⟩
      ⟨t, true, true, rc, se, out, so, true, true⟩ fs0).trace.spawned = true ∧
    (convert_markdown_to_docx ⟨true, body⟩
      ⟨t, true, true, rc, se, out, so, true, true⟩ fs0).trace.procAlive = false ∧
    fsExists (convert_markdown_to_docx ⟨true, body⟩
      ⟨t, true, true, rc, se, out, so, true, true⟩ fs0).fs (input_md_path t) = false ∧
    fsExists (convert_markdown_to_docx ⟨true, body⟩
      ⟨t, true, true, rc, se, out, so, true, true⟩ fs0).fs (output_docx_path t) = false := by
  have hf : isFalsy (PyVal.pyStr s) = false := beq_eq_false_iff_ne.mpr hs
  rw [convert_valid body (PyVal.pyStr s) _ fs0 hget hf]
  refine ⟨finallyCleanup_fst _ _ _ rfl rfl, rfl, rfl, ?_, ?_⟩
  · exact (finallyCleanup_clears _ _ _ rfl rfl).1
  · exact (finallyCleanup_clears _ _ _ rfl rfl).2

/-- Witness for C2's amended theorem at a concrete timed-out request. -/
theorem c2_timeout_terminates_and_cleans_witness :
    (convert_markdown_to_docx ⟨true, PyVal.pyDict [("markdown", PyVal.pyStr "# Hello")]⟩
      ⟨"tok", true, true, 0, "boom", none, true, true, true⟩ []).result
      = Except.error PyExc.timeoutExpired ∧
    (convert_markdown_to_docx ⟨true, PyVal.pyDict [("markdown", PyVal.pyStr "# Hello")]⟩
      ⟨"tok", true, true, 0, "boom", none, true, true, true⟩ []).trace.spawned = true ∧
    (convert_markdown_to_docx ⟨true, PyVal.pyDict [("markdown", PyVal.pyStr "# Hello")]⟩
      ⟨"tok", true, true, 0, "boom", none, true, true, true⟩ []).trace.procAlive = false ∧
    fsExists (convert_markdown_to_docx ⟨true, PyVal.pyDict [("markdown", PyVal.pyStr "# Hello")]⟩
      ⟨"tok", true, true, 0, "boom", none, true, true, true⟩ []).fs (input_md_path "tok") = false ∧
    fsExists (convert_markdown_to_docx ⟨true, PyVal.pyDict [("markdown", PyVal.pyStr "# Hello")]⟩
      ⟨"tok", true, true, 0, "boom", none, true, true, true⟩ []).fs (output_docx_path "tok") = false :=
  c2_timeout_terminates_and_cleans (PyVal.pyDict [("markdown", PyVal.pyStr "# Hello")])
    "# Hello" [] "tok" "boom" 0 none true rfl (by decide)

/-- C3, counterexample: a local I/O failure while writing the scratch input
is NOT caught inside the handler: `convert_markdown_to_docx` has no
`except:` clause, so the `IOError`/`OSError` raised by `open`/`write`
escapes to the HTTP layer as an unhandled exception instead of becoming a
structured JSON error response. -/
theorem c3_write_failure_cex :
    (convert_markdown_to_docx ⟨true, PyVal.pyDict [("markdown", PyVal.pyStr "# Hello")]⟩
      ⟨"tok", false, false, 0, "", none, true, true, true⟩ []).result
      = Except.error PyExc.ioError := rfl

/-- C3, amended: converter failures detected through the completed process
(non-zero exit, missing output) are converted to structured JSON responses
(see C4 and C5), but a failure to write the scratch input and the converter
timeout are not caught: they escape `convert_markdown_to_docx` as unhandled
exceptions (`IOError`, `subprocess.TimeoutExpired`) to the HTTP layer. -/
theorem c3_uncaught_failures
    (body : PyVal) (s : String) (fs0 : Fs) (t se : String)
    (rc : Int) (out : Option String) (so tm : Bool)
    (hget : pyGet body "markdown" = Except.ok (PyVal.pyStr s))
    (hs : s ≠ "") :
    (convert_markdown_to_docx ⟨true, body⟩
      ⟨t, false, tm, rc, se, out, so, true, true⟩ fs0).result
      = Except.error PyExc.ioError ∧
    (convert_markdown_to_docx ⟨true, body⟩
      ⟨t, true, true, rc, se, out, so, true, true⟩ fs0).result
      = Except.error PyExc.timeoutExpired := by
  have hf : isFalsy (PyVal.pyStr s) = false := beq_eq_false_iff_ne.mpr hs
  constructor
  · rw [convert_valid body (PyVal.pyStr s) _ fs0 hget hf]
    exact finallyCleanup_fst _ _ _ rfl rfl
  · rw [convert_valid body (PyVal.pyStr s) _ fs0 hget hf]
    exact finallyCleanup_fst _ _ _ rfl rfl

/-- Witness for C3's amended theorem at a concrete request. -/
theorem c3_uncaught_failures_witness :
    (convert_markdown_to_docx ⟨true, PyVal.pyDict [("markdown", PyVal.pyStr "# Hello")]⟩
      ⟨"tok", false, false, 0, "", none, true, true, true⟩ []).result
      = Except.error PyExc.ioError ∧
    (convert_markdown_to_docx ⟨true, PyVal.pyDict [("markdown", PyVal.pyStr "# Hello")]⟩
      ⟨"tok", true, true, 0, "", none, true, true, true⟩ []).result
      = Except.error PyExc.timeoutExpired :=
  c3_uncaught_failures (PyVal.pyDict [("markdown", PyVal.pyStr "# Hello")])
    "# Hello" [] "tok" "" 0 none true false rfl (by decide)

/-- C4: on a valid request whose converter exits non-zero (for any captured
stderr text, whether or not an output file was produced), the handler
returns HTTP 500 with body `error = "Pandoc conversion failed"` and
`details` equal to exactly the captured stderr text. -/
theorem c4_pandoc_failed
    (body : PyVal) (s : String) (fs0 : Fs) (t se : String)
    (rc : Int) (out : Option String) (so : Bool)
    (hget : pyGet body "markdown" = Except.ok (PyVal.pyStr s))
    (hs : s ≠ "") (hrc : rc ≠ 0) :
    (convert_markdown_to_docx ⟨true, body⟩
      ⟨t, true, false, rc, se, out, so, true, true⟩ fs0).result
      = Except.ok (Response.jsonResp 500
          [("error", "Pandoc conversion failed"), ("details", se)]) := by
  have hf : isFalsy (PyVal.pyStr s) = false := beq_eq_false_iff_ne.mpr hs
  have hb : (rc != 0) = true := bne_iff_ne.mpr hrc
  rw [convert_valid body (PyVal.pyStr s) _ fs0 hget hf]
  exact (finallyCleanup_fst _ _ _ rfl rfl).trans (by cases out <;> simp [tryBody, hb])

/-- Witness for C4 at a concrete failing conversion. -/
theorem c4_pandoc_failed_witness :
    (convert_markdown_to_docx ⟨true, PyVal.pyDict [("markdown", PyVal.pyStr "# Hello")]⟩
      ⟨"tok", true, false, 64, "pandoc: bad input", none, true, true, true⟩ []).result
      = Except.ok (Response.jsonResp 500
          [("error", "Pandoc conversion failed"), ("details", "pandoc: bad input")]) :=
  c4_pandoc_failed (PyVal.pyDict [("markdown", PyVal.pyStr "# Hello")])
    "# Hello" [] "tok" "pandoc: bad input" 64 none true rfl (by decide) (by decide)

/-- C5: on a valid request whose converter exits zero but writes no output
artifact (and none pre-exists at the derived path), the handler returns
HTTP 500 with `error = "Converted file not found on server"`; and the check
comes after the exit-code check: with the output equally missing but a
non-zero exit code, the "Pandoc conversion failed" response wins. -/
theorem c5_output_missing
    (body : PyVal) (s : String) (fs0 : Fs) (t se : String)
    (rc : Int) (so : Bool)
    (hget : pyGet body "markdown" = Except.ok (PyVal.pyStr s))
    (hs : s ≠ "") (hrc : rc ≠ 0)
    (hout0 : fsExists fs0 (output_docx_path t) = false) :
    (convert_markdown_to_docx ⟨true, body⟩
      ⟨t, true, false, 0, se, none, so, true, true⟩ fs0).result
      = Except.ok (Response.jsonResp 500
          [("error", "Converted file not found on server")]) ∧
    (convert_markdown_to_docx ⟨true, body⟩
      ⟨t, true, false, rc, se, none, so, true, true⟩ fs0).result
      = Except.ok (Response.jsonResp 500
          [("error", "Pandoc conversion failed"), ("details", se)]) := by
  have hf : isFalsy (PyVal.pyStr s) = false := beq_eq_false_iff_ne.mpr hs
  have hb : (rc != 0) = true := bne_iff_ne.mpr hrc
  have hmiss : fsExists (fsWrite fs0 (input_md_path t) s) (output_docx_path t) = false :=
    fsExists_fsWrite_of_ne _ _ _ _ (input_ne_output t) hout0
  constructor
  · rw [convert_valid body (PyVal.pyStr s) _ fs0 hget hf]
    exact (finallyCleanup_fst _ _ _ rfl rfl).trans (by simp [tryBody, hmiss])
  · rw [convert_valid body (PyVal.pyStr s) _ fs0 hget hf]
    exact (finallyCleanup_fst _ _ _ rfl rfl).trans (by simp [tryBody, hb])

/-- Witness for C5 at a concrete request (empty scratch filesystem). -/
theorem c5_output_missing_witness :
    (convert_markdown_to_docx ⟨true, PyVal.pyDict [("markdown", PyVal.pyStr "# Hello")]⟩
      ⟨"tok", true, false, 0, "warn", none, true, true, true⟩ []).result
      = Except.ok (Response.jsonResp 500
          [("error", "Converted file not found on server")]) ∧
    (convert_markdown_to_docx ⟨true, PyVal.pyDict [("markdown", PyVal.pyStr "# Hello")]⟩
      ⟨"tok", true, false, 2, "warn", none, true, true, true⟩ []).result
      = Except.ok (Response.jsonResp 500
          [("error", "Pandoc conversion failed"), ("details", "warn")]) :=
  c5_output_missing (PyVal.pyDict [("markdown", PyVal.pyStr "# Hello")])
    "# Hello" [] "tok" "warn" 2 true rfl (by decide) (by decide) rfl

/-- C7: on a valid request whose converter exits zero and writes the output
artifact with content `c`, the handler returns HTTP 200 with exactly that
content as an attachment named `converted_document.docx` and the docx MIME
type.  The right-hand side does not mention the per-request token `t`: the
response is the same whatever token was drawn, so the token appears in no
part of the response sent to the client. -/
theorem c7_success_response
    (body : PyVal) (s : String) (fs0 : Fs) (t se c : String)
    (hget : pyGet body "markdown" = Except.ok (PyVal.pyStr s))
    (hs : s ≠ "") :
    (convert_markdown_to_docx ⟨true, body⟩
      ⟨t, true, false, 0, se, some c, true, true, true⟩ fs0).result
      = Except.ok (Response.fileResp 200 c "converted_document.docx" pandocMimetype) := by
  have hf : isFalsy (PyVal.pyStr s) = false := beq_eq_false_iff_ne.mpr hs
  have hex : fsExists (fsWrite (fsWrite fs0 (input_md_path t) s) (output_docx_path t) c)
      (output_docx_path t) = true := fsExists_fsWrite_self _ _ _
  have hrd : fsRead (fsWrite (fsWrite fs0 (input_md_path t) s) (output_docx_path t) c)
      (output_docx_path t) = some c := fsRead_fsWrite_self _ _ _
  rw [convert_valid body (PyVal.pyStr s) _ fs0 hget hf]
  exact (finallyCleanup_fst _ _ _ rfl rfl).trans (by simp [tryBody, hex, hrd])

/-- Witness for C7 at a concrete successful conversion. -/
theorem c7_success_response_witness :
    (convert_markdown_to_docx ⟨true, PyVal.pyDict [("markdown", PyVal.pyStr "# Hello")]⟩
      ⟨"tok", true, false, 0, "", some "DOCXBYTES", true, true, true⟩ []).result
      = Except.ok (Response.fileResp 200 "DOCXBYTES" "converted_document.docx" pandocMimetype) :=
  c7_success_response (PyVal.pyDict [("markdown", PyVal.pyStr "# Hello")])
    "# Hello" [] "tok" "" "DOCXBYTES" rfl (by decide)

/-- C6: validation is ordered with the first failure winning.  Any request
with a non-JSON content type gets HTTP 415 `Request must be JSON` whatever
its body; a JSON request whose dict body has the `markdown` key absent,
`null`, or the empty string gets HTTP 400 with the documented message.  In
both cases the handler returns with the scratch filesystem untouched and no
subprocess spawned. -/
theorem c6_validation_order
    (body : PyVal) (kvs : List (String × PyVal)) (env : ConvEnv) (fs0 : Fs)
    (hmk : List.lookup "markdown" kvs = none ∨
           List.lookup "markdown" kvs = some PyVal.pyNone ∨
           List.lookup "markdown" kvs = some (PyVal.pyStr "")) :
    convert_markdown_to_docx ⟨false, body⟩ env fs0
      = ⟨Except.ok (Response.jsonResp 415 [("error", "Request must be JSON")]),
         fs0, ⟨false, false⟩⟩ ∧
    convert_markdown_to_docx ⟨true, PyVal.pyDict kvs⟩ env fs0
      = ⟨Except.ok (Response.jsonResp 400 [("error", missingKeyMsg)]),
         fs0, ⟨false, false⟩⟩ := by
  refine ⟨rfl, ?_⟩
  rcases hmk with h | h | h <;> simp [convert_markdown_to_docx, pyGet, h, isFalsy]

/-- Witness for C6: a non-JSON request, and a JSON request with body `{}`. -/
theorem c6_validation_order_witness :
    convert_markdown_to_docx ⟨false, PyVal.pyDict [("markdown", PyVal.pyStr "# Hello")]⟩
      ⟨"tok", true, false, 0, "", none, true, true, true⟩ []
      = ⟨Except.ok (Response.jsonResp 415 [("error", "Request must be JSON")]),
         [], ⟨false, false⟩⟩ ∧
    convert_markdown_to_docx ⟨true, PyVal.pyDict []⟩
      ⟨"tok", true, false, 0, "", none, true, true, true⟩ []
      = ⟨Except.ok (Response.jsonResp 400 [("error", missingKeyMsg)]),
         [], ⟨false, false⟩⟩ :=
  c6_validation_order (PyVal.pyDict [("markdown", PyVal.pyStr "# Hello")]) []
    ⟨"tok", true, false, 0, "", none, true, true, true⟩ [] (Or.inl rfl)

/-- C8, counterexample: on a request whose `try:` body has already determined
the 200 success response, a failure of `os.remove` on the input artifact
during cleanup raises `OSError` out of the `finally:` block, so the handler's
outcome becomes that exception — the deletion failure is not swallowed and
replaces the already-determined outcome. -/
theorem c8_removal_not_swallowed_cex :
    (tryBody (PyVal.pyStr "# Hello")
      ⟨"tok", true, false, 0, "", some "DOCX", true, false, true⟩ []).1
      = Except.ok (Response.fileResp 200 "DOCX" "converted_document.docx" pandocMimetype) ∧
    (convert_markdown_to_docx ⟨true, PyVal.pyDict [("markdown", PyVal.pyStr "# Hello")]⟩
      ⟨"tok", true, false, 0, "", some "DOCX", true, false, true⟩ []).result
      = Except.error PyExc.osError := ⟨rfl, rfl⟩

/-- C8, amended: cleanup deletes each artifact only if it exists, but
deletion errors are not swallowed: on a success-path request whose input
artifact cannot be removed, the `OSError` escapes the `finally:` block,
replaces the 200 outcome already determined by the body, and skips the
output-artifact removal, so both artifacts remain on the scratch
filesystem. -/
theorem c8_removal_error_replaces_outcome
    (body : PyVal) (s : String) (fs0 : Fs) (t se c : String)
    (hget : pyGet body "markdown" = Except.ok (PyVal.pyStr s))
    (hs : s ≠ "") :
    (tryBody (PyVal.pyStr s)
      ⟨t, true, false, 0, se, some c, true, false, true⟩ fs0).1
      = Except.ok (Response.fileResp 200 c "converted_document.docx" pandocMimetype) ∧
    (convert_markdown_to_docx ⟨true, body⟩
      ⟨t, true, false, 0, se, some c, true, false, true⟩ fs0).result
      = Except.error PyExc.osError ∧
    fsExists (convert_markdown_to_docx ⟨true, body⟩
      ⟨t, true, false, 0, se, some c, true, false, true⟩ fs0).fs (input_md_path t) = true ∧
    fsExists (convert_markdown_to_docx ⟨true, body⟩
      ⟨t, true, false, 0, se, some c, true, false, true⟩ fs0).fs (output_docx_path t) = true := by
  have hf : isFalsy (PyVal.pyStr s) = false := beq_eq_false_iff_ne.mpr hs
  have hex : fsExists (fsWrite (fsWrite fs0 (input_md_path t) s) (output_docx_path t) c)
      (output_docx_path t) = true := fsExists_fsWrite_self _ _ _
  have hrd : fsRead (fsWrite (fsWrite fs0 (input_md_path t) s) (output_docx_path t) c)
      (output_docx_path t) = some c := fsRead_fsWrite_self _ _ _
  have hin : fsExists (fsWrite (fsWrite fs0 (input_md_path t) s) (output_docx_path t) c)
      (input_md_path t) = true :=
    fsExists_fsWrite_keep _ _ _ _ (input_ne_output t) (fsExists_fsWrite_self _ _ _)
  have hX : tryBody (PyVal.pyStr s)
      ⟨t, true, false, 0, se, some c, true, false, true⟩ fs0
      = (Except.ok (Response.fileResp 200 c "converted_document.docx" pandocMimetype),
         fsWrite (fsWrite fs0 (input_md_path t) s) (output_docx_path t) c,
         ⟨true, false⟩) := by
    simp [tryBody, hex, hrd]
  refine ⟨by rw [hX], ?_, ?_, ?_⟩ <;>
    rw [convert_valid body (PyVal.pyStr s) _ fs0 hget hf, hX] <;>
    simp [finallyCleanup, hin, hex]

/-- Witness for C8's amended theorem at a concrete request. -/
theorem c8_removal_error_replaces_outcome_witness :
    (tryBody (PyVal.pyStr "# Hello")
      ⟨"tok", true, false, 0, "", some "DOCX", true, false, true⟩ []).1
      = Except.ok (Response.fileResp 200 "DOCX" "converted_document.docx" pandocMimetype) ∧
    (convert_markdown_to_docx ⟨true, PyVal.pyDict [("markdown", PyVal.pyStr "# Hello")]⟩
      ⟨"tok", true, false, 0, "", some "DOCX", true, false, true⟩ []).result
      = Except.error PyExc.osError ∧
    fsExists (convert_markdown_to_docx ⟨true, PyVal.pyDict [("markdown", PyVal.pyStr "# Hello")]⟩
      ⟨"tok", true, false, 0, "", some "DOCX", true, false, true⟩ []).fs (input_md_path "tok") = true ∧
    fsExists (convert_markdown_to_docx ⟨true, PyVal.pyDict [("markdown", PyVal.pyStr "# Hello")]⟩
      ⟨"tok", true, false, 0, "", some "DOCX", true, false, true⟩ []).fs (output_docx_path "tok") = true :=
  c8_removal_error_replaces_outcome (PyVal.pyDict [("markdown", PyVal.pyStr "# Hello")])
    "# Hello" [] "tok" "" "DOCX" rfl (by decide)

/-- C9, counterexample: the spec-modelled environment-overridable scratch
directory (`TEMP_DIR_spec`) differs from what the code computes
(`TEMP_DIR_of_environ`) on the concrete environment that sets `TEMP_DIR` to
`/custom`: the code ignores the environment and keeps the literal `/tmp`. -/
theorem c9_tempdir_cex :
    TEMP_DIR_spec [("TEMP_DIR", "/custom")] = "/custom" ∧
    TEMP_DIR_of_environ [("TEMP_DIR", "/custom")] = "/tmp" ∧
    TEMP_DIR_of_environ [("TEMP_DIR", "/custom")]
      ≠ TEMP_DIR_spec [("TEMP_DIR", "/custom")] := by
  refine ⟨rfl, rfl, ?_⟩
  decide

/-- C9, amended: the scratch directory used to derive both artifact paths is
the hardcoded module-level constant `'/tmp'` (a platform temp directory); it
is not injected and not environment-overridable — the code's value is the
same under every process environment. -/
theorem c9_tempdir_hardcoded (environ : List (String × String)) :
    TEMP_DIR_of_environ environ = TEMP_DIR ∧ TEMP_DIR = "/tmp" :=
  ⟨rfl, rfl⟩

/-- C10: on a request with JSON content type whose parsed body is not a JSON
object (array, string, number, boolean, or null), `data.get('markdown')`
raises `AttributeError`, which escapes `convert_markdown_to_docx` uncaught
(the HTTP layer then renders a generic 500, not the documented 400); no
scratch artifact is created and no subprocess is spawned. -/
theorem c10_nondict_get_raises
    (body : PyVal) (env : ConvEnv) (fs0 : Fs)
    (hnd : isDict body = false) :
    convert_markdown_to_docx ⟨true, body⟩ env fs0
      = ⟨Except.error PyExc.attributeError, fs0, ⟨false, false⟩⟩ := by
  cases body with
  | pyDict kvs => simp [isDict] at hnd
  | pyNone => rfl
  | pyBool b => rfl
  | pyInt n => rfl
  | pyStr s => rfl
  | pyList xs => rfl

/-- Witness for C10 at a concrete JSON-array body. -/
theorem c10_nondict_get_raises_witness :
    convert_markdown_to_docx ⟨true, PyVal.pyList [PyVal.pyStr "# Hello"]⟩
      ⟨"tok", true, false, 0, "", none, true, true, true⟩ []
      = ⟨Except.error PyExc.attributeError, [], ⟨false, false⟩⟩ :=
  c10_nondict_get_raises (PyVal.pyList [PyVal.pyStr "# Hello"])
    ⟨"tok", true, false, 0, "", none, true, true, true⟩ [] rfl

end Md2Docx
